import Mathlib

/-!
Verification development for the Moondream Station inference control plane.

The definitions below are a shallow embedding of the Python sources in
`moondream_station/core/` (`simple_worker_pool.py`, `inference_service.py`,
`rest_server.py`, `manifest.py`).  Python values that flow through request
envelopes, stats dictionaries and manifests are modelled by the inductive
type `PyVal`; machine floats are modelled by rationals; I/O outcomes
(network fetches, wall-clock times, the completion of a future) are passed
in explicitly as parameters.
-/

namespace MoondreamStation

/-- Model of the Python values that flow through the core: `None`, booleans,
numbers (floats/ints as rationals), strings, dicts (insertion-ordered
association lists) and generators (finite lazy sequences, given by the list
of items they will yield). -/
inductive PyVal where
  | pyNone : PyVal
  | pyBool (b : Bool) : PyVal
  | pyNum (q : ℚ) : PyVal
  | pyStr (s : String) : PyVal
  | pyDict (l : List (String × PyVal)) : PyVal
  | pyList (items : List PyVal) : PyVal
  | pyGen (items : List PyVal) : PyVal

namespace PyVal

/-- Dict lookup: first binding of the key, like Python `dict[...]` access on
our insertion-ordered model. -/
def lookup (l : List (String × PyVal)) (k : String) : Option PyVal :=
  match l with
  | [] => none
  | (k0, v) :: rest => if k0 = k then some v else lookup rest k

/-- `d.get(k)` on a dict value; `none` when not a dict or key absent. -/
def pyGet (v : PyVal) (k : String) : Option PyVal :=
  match v with
  | .pyDict l => lookup l k
  | _ => none

/-- `d.get(k, default)` on a dict value. -/
def pyGetD (v : PyVal) (k : String) (dflt : PyVal) : PyVal :=
  match pyGet v k with
  | some x => x
  | none => dflt

/-- Python truthiness of the modelled values. -/
def pyTruthy : PyVal → Bool
  | .pyNone => false
  | .pyBool b => b
  | .pyNum q => q ≠ 0
  | .pyStr s => s ≠ ""
  | .pyDict l => !l.isEmpty
  | .pyList l => !l.isEmpty
  | .pyGen _ => true

/-- `isinstance(v, dict)`. -/
def isDict : PyVal → Bool
  | .pyDict _ => true
  | _ => false

/-- `isinstance(v, (int, float))`; Python `bool` is a subclass of `int`. -/
def isNumeric : PyVal → Bool
  | .pyNum _ => true
  | .pyBool _ => true
  | _ => false

/-- `int(v)` on numeric values (truncation toward zero). -/
def pyInt : PyVal → ℤ
  | .pyNum q => if 0 ≤ q then ⌊q⌋ else -⌊-q⌋
  | .pyBool b => if b then 1 else 0
  | _ => 0

/-- `hasattr(v, "__iter__") and hasattr(v, "__next__")`: only generator
objects in our model satisfy both (strings/lists/dicts lack `__next__`). -/
def isGeneratorLike : PyVal → Bool
  | .pyGen _ => true
  | _ => false

end PyVal

open PyVal

/-! ## Worker pool (`core/simple_worker_pool.py`) -/

/-- Snapshot of the mutable state of a `SimpleWorkerPool`: the constructor
parameters, the current queue length, the counters guarded by `self._lock`
and the `_running` flag. -/
structure PoolSt where
  n_workers : ℕ
  max_queue_size : ℕ
  default_timeout : ℚ
  queueLen : ℕ
  processing_count : ℤ
  timeout_count : ℕ
  running : Bool

/-- `SimpleWorkerPool.__init__(n_workers, max_queue_size, default_timeout)`. -/
def mkPool (n_workers max_queue_size : ℕ) (default_timeout : ℚ) : PoolSt :=
  { n_workers := n_workers
    max_queue_size := max_queue_size
    default_timeout := default_timeout
    queueLen := 0
    processing_count := 0
    timeout_count := 0
    running := true }

/-- `self.request_queue.full()`: a `queue.Queue(maxsize)` is full iff
`0 < maxsize ≤ qsize`. -/
def queueFull (st : PoolSt) : Bool :=
  decide (0 < st.max_queue_size ∧ st.max_queue_size ≤ st.queueLen)

/-- Python `timeout or self.default_timeout` on an `Optional[float]`:
`None` and `0.0` are falsy and fall back to the default. -/
def effectiveTimeout (timeout : Option ℚ) (dflt : ℚ) : ℚ :=
  match timeout with
  | none => dflt
  | some q => if q = 0 then dflt else q

/-- `{"error": "Queue is full", "status": "rejected"}`. -/
def rejectedEnvelope : PyVal :=
  .pyDict [("error", .pyStr "Queue is full"), ("status", .pyStr "rejected")]

/-- `{"error": "Request timeout", "status": "timeout"}`. -/
def timeoutEnvelope : PyVal :=
  .pyDict [("error", .pyStr "Request timeout"), ("status", .pyStr "timeout")]

/-- Whether `result_future.result(timeout=...)` returns a value within the
wait bound or raises `FutureTimeoutError`.  The completion of the future is
an external event (it happens on a worker thread), so it is an input of the
model. -/
inductive FutureWait where
  | resolved (v : PyVal) : FutureWait
  | expired : FutureWait

/-- Result of one `submit_request` call: the pool state afterwards, the
returned envelope, and the timeout stored in the enqueued queue item
(`none` when nothing was enqueued). -/
structure SubmitRes where
  state : PoolSt
  response : PyVal
  enqueuedTimeout : Option ℚ

/-- `SimpleWorkerPool.submit_request(function, timeout, **kwargs)`.
If the queue is full, return the rejected envelope at once.  Otherwise
create a fresh future, enqueue `(function, timeout or default, kwargs,
future)` and wait on the future for `timeout or default` seconds; on
`FutureTimeoutError` increment `timeout_count` and return the timeout
envelope. -/
def submit_request (st : PoolSt) (timeout : Option ℚ) (wait : FutureWait) : SubmitRes :=
  if queueFull st then
    { state := st, response := rejectedEnvelope, enqueuedTimeout := none }
  else
    let eff := effectiveTimeout timeout st.default_timeout
    let st1 := { st with queueLen := st.queueLen + 1 }
    match wait with
    | .resolved v =>
        { state := st1, response := v, enqueuedTimeout := some eff }
    | .expired =>
        { state := { st1 with timeout_count := st1.timeout_count + 1 }
          response := timeoutEnvelope
          enqueuedTimeout := some eff }

/-- `SimpleWorkerPool.get_stats()`: the snapshot taken under `self._lock`. -/
def poolGetStats (st : PoolSt) : PyVal :=
  .pyDict [("workers", .pyNum st.n_workers),
           ("queue_size", .pyNum st.queueLen),
           ("max_queue_size", .pyNum st.max_queue_size),
           ("processing", .pyNum st.processing_count),
           ("timeouts", .pyNum st.timeout_count),
           ("default_timeout", .pyNum st.default_timeout)]

/-! ### Worker loop (`SimpleWorkerPool._worker`), per-job body -/

/-- Outcome of `function(**kwargs)` inside the worker: a returned value or a
raised exception with its message. -/
inductive FnOutcome where
  | ok (v : PyVal) : FnOutcome
  | raises (msg : String) : FnOutcome

/-- `result if isinstance(result, dict) else {"result": result}`. -/
def wrapResult (v : PyVal) : PyVal :=
  match v with
  | .pyDict l => .pyDict l
  | v => .pyDict [("result", v)]

/-- Observable events of the worker body while it handles one dequeued job. -/
inductive WorkerEvent where
  | incProcessing : WorkerEvent
  | runFunction : WorkerEvent
  | completeFuture (v : PyVal) : WorkerEvent
  | decProcessing : WorkerEvent
  | taskDone : WorkerEvent

/-- The event trace of the worker body for one dequeued job, as a function
of the outcome of the capability call: increment `processing_count` under
the lock; run the function; `set_result` with the dict-wrapped value on
return, or with `{"error": str(e), "status": "error"}` on exception; in the
`finally` block decrement `processing_count` and call `task_done`. -/
def workerJobTrace (out : FnOutcome) : List WorkerEvent :=
  [.incProcessing, .runFunction] ++
  (match out with
   | .ok v => [.completeFuture (wrapResult v)]
   | .raises msg =>
       [.completeFuture (.pyDict [("error", .pyStr msg), ("status", .pyStr "error")])]) ++
  [.decProcessing, .taskDone]

/-- The values with which a trace completes the job's future. -/
def completedValues : List WorkerEvent → List PyVal
  | [] => []
  | .completeFuture v :: rest => v :: completedValues rest
  | _ :: rest => completedValues rest

/-- Net effect of a trace on the pool's `processing_count`. -/
def applyProcessing (p : ℤ) : List WorkerEvent → ℤ
  | [] => p
  | .incProcessing :: rest => applyProcessing (p + 1) rest
  | .decProcessing :: rest => applyProcessing (p - 1) rest
  | _ :: rest => applyProcessing p rest

/-- Count of a given processing event in a trace. -/
def countIncs : List WorkerEvent → ℕ
  | [] => 0
  | .incProcessing :: rest => countIncs rest + 1
  | _ :: rest => countIncs rest

/-- Count of decrements in a trace. -/
def countDecs : List WorkerEvent → ℕ
  | [] => 0
  | .decProcessing :: rest => countDecs rest + 1
  | _ :: rest => countDecs rest

/-! ## Inference service (`core/inference_service.py`) -/

/-- The mutable fields of `InferenceService`: `worker_pool`, `current_model`
and `worker_backends` (backend-module handles, identified here by numeric
ids; the module objects themselves are opaque to the control plane). -/
structure SvcState where
  worker_pool : Option PoolSt
  current_model : Option String
  worker_backends : List ℕ

/-- `InferenceService.__init__`. -/
def svcInit : SvcState :=
  { worker_pool := none, current_model := none, worker_backends := [] }

/-- `SimpleWorkerPool.shutdown()`: flips `_running` off (the object stays
referenced by whoever holds it). -/
def poolShutdown (p : PoolSt) : PoolSt :=
  { p with running := false }

/-- `InferenceService.start(model_id)`.  `resolved` is the list returned by
`manifest_manager.get_worker_backends(model_id, n_workers)` (module loading
is I/O, so its outcome is an input); `n, q, t` are the configured worker
count, queue capacity and timeout.  Note the source shuts a pre-existing
pool down but leaves `self.worker_pool` bound to it, and assigns
`self.current_model = model_id` before checking whether any backend
resolved. -/
def svcStart (svc : SvcState) (model_id : String) (resolved : List ℕ)
    (n q : ℕ) (t : ℚ) : SvcState × Bool :=
  let pool0 := svc.worker_pool.map poolShutdown
  let svc1 : SvcState :=
    { worker_pool := pool0, current_model := some model_id, worker_backends := resolved }
  if resolved.isEmpty then
    (svc1, false)
  else
    ({ svc1 with worker_pool := some (mkPool n q t) }, true)

/-- `InferenceService.stop()`. -/
def svcStop : SvcState :=
  { worker_pool := none, current_model := none, worker_backends := [] }

/-- `InferenceService.is_running()`:
`self.worker_pool is not None and self.current_model is not None`. -/
def svcIsRunning (svc : SvcState) : Bool :=
  svc.worker_pool.isSome && svc.current_model.isSome

/-- `InferenceService._get_next_backend()`: returns `None` when the list is
empty, else `self.worker_backends[0]`. -/
def getNextBackend (backends : List ℕ) : Option ℕ :=
  match backends with
  | [] => none
  | b :: _ => some b

/-- The backend handle on which `InferenceService.execute_function` resolves
the capability function for one dispatch (`none` when the call short-circuits
with an error envelope instead).  `hasAttrFn h = true` models
`hasattr(backend_h, function_name)`. -/
def executeFunctionHandle (svc : SvcState) (hasAttrFn : ℕ → Bool) : Option ℕ :=
  if svc.worker_pool.isNone || svc.worker_backends.isEmpty then
    none
  else
    match getNextBackend svc.worker_backends with
    | none => none
    | some b => if hasAttrFn b then some b else none

/-- `InferenceService.get_stats()`: `{"status": "stopped"}` when no pool,
else the pool snapshot with `model` and `status` appended. -/
def serviceGetStats (pool : Option PoolSt) (model : Option String) : PyVal :=
  match pool with
  | none => .pyDict [("status", .pyStr "stopped")]
  | some p =>
      .pyDict [("workers", .pyNum p.n_workers),
               ("queue_size", .pyNum p.queueLen),
               ("max_queue_size", .pyNum p.max_queue_size),
               ("processing", .pyNum p.processing_count),
               ("timeouts", .pyNum p.timeout_count),
               ("default_timeout", .pyNum p.default_timeout),
               ("model", match model with | some m => .pyStr m | none => .pyNone),
               ("status", .pyStr "running")]

/-! ## HTTP gateway (`core/rest_server.py`) -/

/-- Python `round(q)`: round half to even. -/
def pyRoundInt (q : ℚ) : ℤ :=
  let f := ⌊q⌋
  let r := q - f
  if r < 1 / 2 then f
  else if 1 / 2 < r then f + 1
  else if f % 2 = 0 then f else f + 1

/-- Python `round(q, n)`. -/
def pyRoundTo (q : ℚ) (n : ℕ) : ℚ :=
  (pyRoundInt (q * 10 ^ n) : ℚ) / (10 ^ n : ℚ)

/-- One `data: {"chunk": token}` SSE payload. -/
def mkChunkFrame (t : PyVal) : PyVal :=
  .pyDict [("chunk", t)]

/-- The `for token in raw_generator` loop of `_sse_event_generator`: yields
one chunk frame per token while counting tokens. -/
def sseChunkLoop : List PyVal → ℕ → List PyVal × ℕ
  | [], n => ([], n)
  | t :: ts, n =>
      let r := sseChunkLoop ts (n + 1)
      (mkChunkFrame t :: r.1, r.2)

/-- The payload of the final stats frame:
`{"stats": {"tokens": N, "duration": round(D,2), "tokens_per_sec": round(N/D,1)}}`. -/
def sseStatsFrame (tokenCount : ℕ) (duration : ℚ) : PyVal :=
  .pyDict [("stats",
    .pyDict [("tokens", .pyNum tokenCount),
             ("duration", .pyNum (pyRoundTo duration 2)),
             ("tokens_per_sec", .pyNum (pyRoundTo (tokenCount / duration) 1))])]

/-- The payload of the closing frame: `{"completed": true}`. -/
def sseCompletedFrame : PyVal :=
  .pyDict [("completed", .pyBool true)]

/-- `RestServer._sse_event_generator(raw_generator)`, as the list of SSE
frame payloads it yields.  `gen` is the list of items the generator will
produce and `duration` the measured elapsed time when it ends. -/
def sse_event_generator (gen : List PyVal) (duration : ℚ) : List PyVal :=
  let r := sseChunkLoop gen 0
  r.1 ++
    (if 0 < duration ∧ 0 < r.2 then [sseStatsFrame r.2 duration] else []) ++
    [sseCompletedFrame]

/-- `len(value.split())` for a Python string: whitespace-split, empty pieces
dropped. -/
def pyWhitespaceTokens (s : String) : ℕ :=
  ((s.split Char.isWhitespace).filter (fun p => p ≠ "")).length

/-- The token-count estimate of `_handle_dynamic_request`: sum of
`len(value.split())` over the string values of the result dict. -/
def tokenCountOf (r : PyVal) : ℕ :=
  match r with
  | .pyDict l =>
      (l.map (fun kv =>
        match kv.2 with
        | .pyStr s => pyWhitespaceTokens s
        | _ => 0)).sum
  | _ => 0

/-- Truthiness of `isinstance(result, dict) and result.get("error")`. -/
def resultErrTruthy (r : PyVal) : Bool :=
  match pyGet r "error" with
  | some v => pyTruthy v
  | none => false

/-- The first `(key, value)` of the result dict whose value is
generator-like (`__iter__` and `__next__` both present), if any. -/
def firstGeneratorVal (r : PyVal) : Option (List PyVal) :=
  match r with
  | .pyDict l =>
      match l.find? (fun kv => isGeneratorLike kv.2) with
      | some kv =>
          match kv.2 with
          | .pyGen items => some items
          | _ => none
      | none => none
  | _ => none

/-- Body of an HTTP response produced by the dynamic route: a JSON document
or an SSE stream of frame payloads. -/
inductive RespBody where
  | json (v : PyVal) : RespBody
  | sse (frames : List PyVal) : RespBody

/-- An HTTP response of the gateway: status code, body, media type. -/
structure HttpResp where
  status : ℕ
  body : RespBody
  media : String

/-- `{"tokens": tc, "duration": round(d,2), "tokens_per_sec": round(tc/d,1)}`
attached as `result["_stats"]` for non-streaming successes. -/
def statsObj (tc : ℕ) (d : ℚ) : PyVal :=
  .pyDict [("tokens", .pyNum tc),
           ("duration", .pyNum (pyRoundTo d 2)),
           ("tokens_per_sec", .pyNum (pyRoundTo (tc / d) 1))]

/-- `result["_stats"] = ...` on a dict result (new key: appended). -/
def attachStats (r : PyVal) (tc : ℕ) (d : ℚ) : PyVal :=
  match r with
  | .pyDict l => .pyDict (l ++ [("_stats", statsObj tc d)])
  | v => v

/-- The non-streaming tail of `_handle_dynamic_request`: attach `_stats`
when the result is an error-free dict with positive duration and token
count, then `return JSONResponse(result)` — whose status is always 200. -/
def nonStreamingResp (result : PyVal) (duration : ℚ) : HttpResp :=
  if isDict result && !resultErrTruthy result then
    let tc := tokenCountOf result
    if 0 < duration ∧ 0 < tc then
      { status := 200, body := .json (attachStats result tc duration)
        media := "application/json" }
    else
      { status := 200, body := .json result, media := "application/json" }
  else
    { status := 200, body := .json result, media := "application/json" }

/-- `RestServer._handle_dynamic_request`, from the point where the service
result is known: 503 when the service is not running; SSE when streaming
was requested, the result is an error-free dict and it contains a
generator value; otherwise the JSON tail.  `running` is
`inference_service.is_running()`, `stream` the truthiness of the `stream`
kwarg, `result` the envelope returned by `execute_function`, and
`duration` the measured elapsed time. -/
def handleDynamicRequest (running : Bool) (stream : Bool) (result : PyVal)
    (duration : ℚ) : HttpResp :=
  if !running then
    { status := 503, body := .json (.pyStr "Inference service not running")
      media := "application/json" }
  else if stream && isDict result && !resultErrTruthy result then
    match firstGeneratorVal result with
    | some items =>
        { status := 200, body := .sse (sse_event_generator items duration)
          media := "text/event-stream" }
    | none => nonStreamingResp result duration
  else nonStreamingResp result duration

/-- `float(v)` coercion as used on the extracted `timeout` kwarg: numbers
and booleans coerce; strings go through float parsing (an input of the
model, since the claim only depends on whether it fails); `None`, dicts
and generators raise `TypeError`. -/
def coerceFloat (parse : String → Option ℚ) (v : PyVal) : Option ℚ :=
  match v with
  | .pyNum q => some q
  | .pyBool b => some (if b then 1 else 0)
  | .pyStr s => parse s
  | _ => none

/-- The `timeout` handling of `_handle_dynamic_request`:
`timeout = kwargs.pop("timeout", None); if timeout: try: timeout =
float(timeout) except (ValueError, TypeError): timeout = None`.  Falsy
values (`None`, `0`, `""`) skip the coercion and flow through unchanged. -/
def extractTimeout (parse : String → Option ℚ) (v : PyVal) : PyVal :=
  if pyTruthy v then
    match coerceFloat parse v with
    | some q => .pyNum q
    | none => .pyNone
  else v

/-- The `Optional[float]` the pool sees for a post-extraction timeout value:
only a numeric value is an actual float argument; `None` (and the falsy
leftovers `0`/`""`, which `timeout or default` treats identically) select
the pool default. -/
def toPoolTimeout (v : PyVal) : Option ℚ :=
  match v with
  | .pyNum q => some q
  | _ => none

/-! ## Idle-shutdown monitor (`RestServer._start_shutdown_monitor`,
`RestServer._shutdown_pod`) -/

/-- The monitor fields of `RestServer` guarded by `self.shutdown_lock`. -/
structure MonitorState where
  lastIdleTime : Option ℚ
  consecutiveIdleChecks : ℕ
  shutdownAttempted : Bool

/-- The monitor fields as initialized in `RestServer.__init__`. -/
def monitorInit : MonitorState :=
  { lastIdleTime := none, consecutiveIdleChecks := 0, shutdownAttempted := false }

/-- State carried across iterations of `monitor_loop`: the shared monitor
fields plus the loop-local `consecutive_errors` counter. -/
structure LoopState where
  mon : MonitorState
  consecutiveErrors : ℕ

/-- `monitor_loop`'s local state at entry. -/
def loopInit : LoopState :=
  { mon := monitorInit, consecutiveErrors := 0 }

/-- `RestServer._shutdown_pod()`: under the lock, return without doing
anything if a shutdown was already attempted, else set the one-shot flag
and run the `runpodctl remove pod` command.  The returned boolean is
whether the external command was invoked. -/
def shutdownPod (m : MonitorState) : MonitorState × Bool :=
  if m.shutdownAttempted then (m, false)
  else ({ m with shutdownAttempted := true }, true)

/-- What one tick observes from `self.inference_service.get_stats()`:
either a stats value or a raised exception. -/
inductive StatsRead where
  | ok (stats : PyVal) : StatsRead
  | raised : StatsRead

/-- The observable outcome of one iteration of `monitor_loop`. -/
structure TickOut where
  st : LoopState
  breaks : Bool
  invoked : Bool

/-- One iteration of `monitor_loop` (one tick, after the interval wait
returned without the shutdown event being set).  `threshold` is
`self.shutdown_timeout`, `now` the value of `time.time()` at the tick, and
`read` the result of the stats call.  Mirrors the source: exit if a
shutdown was already attempted; on a stats error bump the consecutive-error
counter and exit after 5; otherwise take `queue_size`/`processing` with
default 0, skip the tick if they are non-numeric, and run the idle logic. -/
def monitorTick (threshold : ℚ) (s : LoopState) (now : ℚ) (read : StatsRead) : TickOut :=
  if s.mon.shutdownAttempted then
    { st := s, breaks := true, invoked := false }
  else
    match read with
    | .raised =>
        let e := s.consecutiveErrors + 1
        { st := { s with consecutiveErrors := e }, breaks := 5 ≤ e, invoked := false }
    | .ok stats =>
        let s := { s with consecutiveErrors := 0 }
        let qs := pyGetD stats "queue_size" (.pyNum 0)
        let pr := pyGetD stats "processing" (.pyNum 0)
        if !(isNumeric qs && isNumeric pr) then
          { st := s, breaks := false, invoked := false }
        else
          let q := pyInt qs
          let p := pyInt pr
          if q = 0 && p = 0 then
            match s.mon.lastIdleTime with
            | none =>
                { st := { s with mon :=
                    { s.mon with lastIdleTime := some now, consecutiveIdleChecks := 1 } }
                  breaks := false, invoked := false }
            | some t0 =>
                let m1 := { s.mon with
                  consecutiveIdleChecks := s.mon.consecutiveIdleChecks + 1 }
                if threshold ≤ now - t0 then
                  let r := shutdownPod m1
                  { st := { s with mon := r.1 }, breaks := true, invoked := r.2 }
                else
                  { st := { s with mon := m1 }, breaks := false, invoked := false }
          else
            { st := { s with mon :=
                { s.mon with lastIdleTime := none, consecutiveIdleChecks := 0 } }
              breaks := false, invoked := false }

/-- A step of the process that can touch the one-shot shutdown flag: a
monitor tick, or a direct call of the shutdown routine. -/
inductive MonStep where
  | tick (now : ℚ) (read : StatsRead) : MonStep
  | podShutdownCall : MonStep

/-- Apply one step, reporting whether it invoked the external command. -/
def applyMonStep (threshold : ℚ) (s : LoopState) : MonStep → LoopState × Bool
  | .tick now read =>
      let o := monitorTick threshold s now read
      (o.st, o.invoked)
  | .podShutdownCall =>
      let r := shutdownPod s.mon
      ({ s with mon := r.1 }, r.2)

/-- Number of invocations of the external shutdown command over a sequence
of steps. -/
def countInvocations (threshold : ℚ) (s : LoopState) : List MonStep → ℕ
  | [] => 0
  | step :: rest =>
      let r := applyMonStep threshold s step
      (if r.2 then 1 else 0) + countInvocations threshold r.1 rest

/-! ## Manifest store (`core/manifest.py`) -/

/-- `ModelInfo` (pydantic model). -/
structure ModelInfo where
  name : String
  description : String
  backend : String
  version : String
  args : List (String × PyVal)
  is_default : Bool
  supported_os : Option (List String)
  system_requirements : Option PyVal

/-- `BackendInfo` (pydantic model). -/
structure BackendInfo where
  name : String
  download_url : String
  entry_module : String
  functions : List String
  version : String
  min_version : Option String

/-- `ManifestData` (pydantic model); only the fields the claims touch are
carried structurally, the free-form tails stay `PyVal`. -/
structure ManifestData where
  version : String
  models : List (String × ModelInfo)
  backends : List (String × BackendInfo)
  messages : List (String × String)
  moondream_station_info : Option PyVal
  version_messages : Option PyVal
  analytics : Option PyVal

/-- Pydantic string-field check. -/
def asStr : PyVal → Option String
  | .pyStr s => some s
  | _ => none

/-- Pydantic `bool` field check. -/
def asBool : PyVal → Option Bool
  | .pyBool b => some b
  | _ => none

/-- Pydantic `Dict[str, Any]` field check. -/
def asObj : PyVal → Option (List (String × PyVal))
  | .pyDict l => some l
  | _ => none

/-- Pydantic `List[str]` field check. -/
def asStrList (v : PyVal) : Option (List String) :=
  match v with
  | .pyList items => items.mapM asStr
  | _ => none

/-- Pydantic `Optional[T]` field: absent or `null` is fine, a present value
must parse. -/
def optField {α : Type} (f : PyVal → Option α) : Option PyVal → Option (Option α)
  | none => some none
  | some .pyNone => some none
  | some v =>
      match f v with
      | some a => some (some a)
      | none => none

/-- Validate one `ModelInfo` entry: `name`, `description`, `backend`
required strings; `version` defaults to `"1.0.0"`; `args` defaults to `{}`;
`is_default` defaults to `False`; `supported_os`, `system_requirements`
optional.  No cross-entry checks. -/
def parseModelInfo (v : PyVal) : Option ModelInfo := do
  let l ← asObj v
  let name ← asStr (pyGetD (.pyDict l) "name" .pyNone)
  let description ← asStr (pyGetD (.pyDict l) "description" .pyNone)
  let backend ← asStr (pyGetD (.pyDict l) "backend" .pyNone)
  let version ← asStr (pyGetD (.pyDict l) "version" (.pyStr "1.0.0"))
  let args ← asObj (pyGetD (.pyDict l) "args" (.pyDict []))
  let is_default ← asBool (pyGetD (.pyDict l) "is_default" (.pyBool false))
  let supported_os ← optField asStrList (pyGet (.pyDict l) "supported_os")
  let system_requirements ← optField asObj (pyGet (.pyDict l) "system_requirements")
  some { name := name, description := description, backend := backend
         version := version, args := args, is_default := is_default
         supported_os := supported_os
         system_requirements := system_requirements.map PyVal.pyDict }

/-- Validate one `BackendInfo` entry: `name`, `download_url`, `entry_module`
required strings; `functions` a required list of strings; `version`
defaults to `"1.0.0"`; `min_version` optional. -/
def parseBackendInfo (v : PyVal) : Option BackendInfo := do
  let l ← asObj v
  let name ← asStr (pyGetD (.pyDict l) "name" .pyNone)
  let download_url ← asStr (pyGetD (.pyDict l) "download_url" .pyNone)
  let entry_module ← asStr (pyGetD (.pyDict l) "entry_module" .pyNone)
  let functions ← asStrList (pyGetD (.pyDict l) "functions" .pyNone)
  let version ← asStr (pyGetD (.pyDict l) "version" (.pyStr "1.0.0"))
  let min_version ← optField asStr (pyGet (.pyDict l) "min_version")
  some { name := name, download_url := download_url, entry_module := entry_module
         functions := functions, version := version, min_version := min_version }

/-- Validate a `Dict[str, T]` field value entrywise. -/
def parseStrMap {α : Type} (f : PyVal → Option α) (v : PyVal) :
    Option (List (String × α)) := do
  let l ← asObj v
  l.mapM (fun kv => (f kv.2).map (fun a => (kv.1, a)))

/-- `ManifestData(**data)`: pydantic shape validation of the raw manifest
document.  `version`, `models` and `backends` are required; `messages`
defaults to `{}`; the remaining fields are optional.  Unknown keys are
ignored.  There is no cross-reference check between `models[*].backend`
and the keys of `backends`. -/
def manifestDataOfRaw (data : PyVal) : Option ManifestData := do
  let l ← asObj data
  let version ← asStr (pyGetD (.pyDict l) "version" .pyNone)
  let models ← parseStrMap parseModelInfo (pyGetD (.pyDict l) "models" .pyNone)
  let backends ← parseStrMap parseBackendInfo (pyGetD (.pyDict l) "backends" .pyNone)
  let messages ← parseStrMap asStr (pyGetD (.pyDict l) "messages" (.pyDict []))
  let moondream_station_info ← optField asObj (pyGet (.pyDict l) "moondream_station_info")
  let version_messages :=
    match pyGet (.pyDict l) "version_messages" with
    | some v => some v
    | none => none
  let analytics ← optField asObj (pyGet (.pyDict l) "analytics")
  some { version := version, models := models, backends := backends
         messages := messages
         moondream_station_info := moondream_station_info.map PyVal.pyDict
         version_messages := version_messages
         analytics := analytics.map PyVal.pyDict }

/-- `ManifestManager.load_manifest` once the raw JSON document `data` is in
hand (local read or fetch/cache fallback — I/O): the only validation is
`ManifestData(**data)`, and on success the result is installed as
`self._manifest`.  Returns the installed manifest, `none` when pydantic
validation raised. -/
def load_manifest (data : PyVal) : Option ManifestData :=
  manifestDataOfRaw data

/-- Association-list lookup for manifest maps. -/
def alookup {α : Type} (l : List (String × α)) (k : String) : Option α :=
  match l with
  | [] => none
  | (k0, v) :: rest => if k0 = k then some v else alookup rest k

/-- The spec's referential-integrity condition on a loaded manifest: every
`ModelInfo.backend` id appears among the `backends` keys. -/
def referentiallyIntact (m : ManifestData) : Prop :=
  ∀ p ∈ m.models, (alookup m.backends p.2.backend).isSome

/-- `ManifestManager.download_backend(backend_id)`, first gate: returns
`False` outright when the id is not among the manifest's backends;
otherwise the outcome depends on disk/network I/O, passed in as `io`. -/
def download_backend (m : ManifestData) (backend_id : String) (io : Bool) : Bool :=
  match alookup m.backends backend_id with
  | none => false
  | some _ => io

/-- `ManifestManager.create_worker_backend(backend_id, worker_id, args)`:
`None` when `download_backend` fails or the id is missing; otherwise the
module-load outcome `loadedModule` (I/O). -/
def create_worker_backend (m : ManifestData) (backend_id : String) (io : Bool)
    (loadedModule : Option ℕ) : Option ℕ :=
  if !download_backend m backend_id io then none
  else
    match alookup m.backends backend_id with
    | none => none
    | some _ => loadedModule

/-- `ManifestManager.get_worker_backends(model_id, n_workers)` (cache-miss
path): `[]` when the model id is unknown; otherwise collect the successful
`create_worker_backend` results for worker ids `0..n_workers-1`. -/
def get_worker_backends (m : ManifestData) (model_id : String) (n_workers : ℕ)
    (io : Bool) (loads : ℕ → Option ℕ) : List ℕ :=
  match alookup m.models model_id with
  | none => []
  | some mi =>
      (List.range n_workers).filterMap
        (fun i => create_worker_backend m mi.backend io (loads i))

/-! ## Concrete fixtures used by the theorems below -/

/-- A raw manifest document whose single model references a backend id that
does not occur among the backends. -/
def danglingRawManifest : PyVal :=
  .pyDict
    [("version", .pyStr "1.0.0"),
     ("models", .pyDict
       [("m", .pyDict
         [("name", .pyStr "Model M"),
          ("description", .pyStr "demo model"),
          ("backend", .pyStr "missing-backend")])]),
     ("backends", .pyDict
       [("b", .pyDict
         [("name", .pyStr "Backend B"),
          ("download_url", .pyStr "https-example"),
          ("entry_module", .pyStr "backend"),
          ("functions", .pyList [.pyStr "caption"])])])]

/-- The `ManifestData` that pydantic builds from `danglingRawManifest`. -/
def danglingManifest : ManifestData :=
  { version := "1.0.0"
    models := [("m",
      { name := "Model M", description := "demo model"
        backend := "missing-backend", version := "1.0.0", args := []
        is_default := false, supported_os := none, system_requirements := none })]
    backends := [("b",
      { name := "Backend B", download_url := "https-example"
        entry_module := "backend", functions := ["caption"]
        version := "1.0.0", min_version := none })]
    messages := []
    moondream_station_info := none
    version_messages := none
    analytics := none }

/-- A started service with two workers and two distinct backend handles. -/
def twoWorkerSvc : SvcState :=
  { worker_pool := some (mkPool 2 10 30)
    current_model := some "m"
    worker_backends := [17, 42] }

/-! ## Theorems -/

/-- C6 (confirmed): `submit_request`'s result envelope.  When the queue is
full at submission time the call returns the
`{status:"rejected", error:"Queue is full"}` envelope immediately, with the
pool state untouched and nothing enqueued.  Otherwise a job is enqueued
carrying the effective timeout (`timeout or default`, so `None` and `0`
select the pool default) together with a fresh future; if the future
resolves within the bound its value is returned and the timeout counter is
untouched, and if the wait expires the timeout counter is incremented by
exactly one and the `{status:"timeout"}` envelope is returned. -/
theorem submit_request_spec (stF stA : PoolSt) (t : Option ℚ) (v : PyVal)
    (hF : queueFull stF = true) (hA : queueFull stA = false) :
    (∀ w, submit_request stF t w =
      { state := stF, response := rejectedEnvelope, enqueuedTimeout := none }) ∧
    (submit_request stA t (.resolved v) =
      { state := { stA with queueLen := stA.queueLen + 1 }
        response := v
        enqueuedTimeout := some (effectiveTimeout t stA.default_timeout) }) ∧
    ((submit_request stA t .expired).state.timeout_count = stA.timeout_count + 1 ∧
     (submit_request stA t .expired).response = timeoutEnvelope ∧
     (submit_request stA t .expired).enqueuedTimeout =
       some (effectiveTimeout t stA.default_timeout)) ∧
    pyGet timeoutEnvelope "status" = some (.pyStr "timeout") := by
  refine ⟨fun w => ?_, ?_, ⟨?_, ?_, ?_⟩, rfl⟩ <;>
    simp [submit_request, hF, hA]

/-- Witness for C6 at a concrete full pool, a concrete non-full pool and
`timeout=5`. -/
theorem submit_request_spec_witness :
    (submit_request (mkPool 1 10 30) (some 5) .expired).state.timeout_count =
      (mkPool 1 10 30).timeout_count + 1 :=
  (submit_request_spec ⟨1, 1, 30, 1, 0, 0, true⟩ (mkPool 1 10 30) (some 5) .pyNone
    (by decide) (by decide)).2.2.1.1

/-- C8 (confirmed): for every job a worker dequeues, `processing_count` is
incremented exactly once before the capability function runs and
decremented exactly once afterward — also when the function raises — the
net effect on the counter is zero, and the job's future is completed
exactly once, with the dict-wrapped return value on success or with the
`{"error": msg, "status": "error"}` envelope on exception. -/
theorem worker_job_processing_and_future (out : FnOutcome) (p : ℤ) :
    countIncs (workerJobTrace out) = 1 ∧
    countDecs (workerJobTrace out) = 1 ∧
    applyProcessing p (workerJobTrace out) = p ∧
    (workerJobTrace out).take 2 = [.incProcessing, .runFunction] ∧
    (workerJobTrace out).drop 3 = [.decProcessing, .taskDone] ∧
    (match out with
     | .ok v => completedValues (workerJobTrace out) = [wrapResult v]
     | .raises msg => completedValues (workerJobTrace out) =
         [.pyDict [("error", .pyStr msg), ("status", .pyStr "error")]]) := by
  cases out <;>
    refine ⟨rfl, rfl, ?_, rfl, rfl, rfl⟩ <;>
      simp [workerJobTrace, applyProcessing]

/-- C10 (confirmed): a dynamic request whose extracted `timeout` value is
`0`, the empty string, or any truthy value on which `float` coercion fails,
ends up waiting with the pool's default timeout: the falsy values skip the
coercion and are then discarded by the pool's `timeout or default`, and a
failed coercion resets the timeout to `None`.  In particular a client can
never obtain a zero-second deadline by sending `timeout=0`. -/
theorem timeout_falsy_or_uncoercible_uses_default
    (parse : String → Option ℚ) (d : ℚ) (v : PyVal)
    (h : v = .pyNum 0 ∨ v = .pyStr "" ∨
         (pyTruthy v = true ∧ coerceFloat parse v = none)) :
    effectiveTimeout (toPoolTimeout (extractTimeout parse v)) d = d := by
  rcases h with h | h | ⟨h1, h2⟩
  · subst h
    simp [extractTimeout, pyTruthy, toPoolTimeout, effectiveTimeout]
  · subst h
    simp [extractTimeout, pyTruthy, toPoolTimeout, effectiveTimeout]
  · simp [extractTimeout, h1, h2, toPoolTimeout, effectiveTimeout]

/-- Witness for C10 at `timeout=0` with default 30. -/
theorem timeout_falsy_or_uncoercible_uses_default_witness :
    effectiveTimeout (toPoolTimeout (extractTimeout (fun _ => none) (.pyNum 0))) 30 = 30 :=
  timeout_falsy_or_uncoercible_uses_default (fun _ => none) 30 (.pyNum 0) (Or.inl rfl)

/-- C2 counterexample: a dispatch with the service running whose pool
submission returned the rejected envelope is answered with HTTP status 200,
not 503 — `JSONResponse(result)` is returned with its default status. -/
theorem queue_full_http_status_cex :
    (handleDynamicRequest true false rejectedEnvelope 1).status = 200 ∧
    ¬ (handleDynamicRequest true false rejectedEnvelope 1).status = 503 := by
  constructor
  · rfl
  · intro h
    simp [handleDynamicRequest, nonStreamingResp, rejectedEnvelope, resultErrTruthy,
      pyGet, PyVal.lookup, pyTruthy, isDict] at h

/-- C2 (corrected): for every dynamic dispatch whose worker-pool submission
returns the rejected envelope `{status:"rejected", error:"Queue is full"}`,
the gateway responds with HTTP status 200 and the envelope itself as the
JSON body (the `error` key suppresses both the SSE branch and the `_stats`
attachment); 503 is produced only when the inference service is not
running. -/
theorem queue_full_maps_to_200_json (stream : Bool) (d : ℚ) :
    handleDynamicRequest true stream rejectedEnvelope d =
      { status := 200, body := .json rejectedEnvelope, media := "application/json" } ∧
    (handleDynamicRequest false stream rejectedEnvelope d).status = 503 := by
  cases stream <;> exact ⟨rfl, rfl⟩

/-- The chunk loop of `_sse_event_generator` yields one chunk frame per
generator item and counts the items. -/
theorem sseChunkLoop_eq (l : List PyVal) (n : ℕ) :
    sseChunkLoop l n = (l.map mkChunkFrame, n + l.length) := by
  induction l generalizing n with
  | nil => simp [sseChunkLoop]
  | cons t ts ih =>
      simp [sseChunkLoop, ih]
      omega

/-- C3 counterexample: for a streamed sequence yielding one item `"a"` with
measured duration 1, the frame before `{"completed": true}` is not the flat
object `{"tokens":N,"duration":D,"tokens_per_sec":R}` the claim describes —
the stats are nested under a `"stats"` key. -/
theorem sse_stats_frame_not_flat_cex :
    sse_event_generator [.pyStr "a"] 1 ≠
      [mkChunkFrame (.pyStr "a"),
       .pyDict [("tokens", .pyNum 1), ("duration", .pyNum 1), ("tokens_per_sec", .pyNum 1)],
       sseCompletedFrame] := by
  intro h
  have h1 : sse_event_generator [.pyStr "a"] 1 =
      [mkChunkFrame (.pyStr "a"), sseStatsFrame 1 1, sseCompletedFrame] := rfl
  rw [h1] at h
  simp [sseStatsFrame] at h

/-- C3 (corrected): the SSE body consists of exactly, in order, one
`{"chunk": item}` frame per generator item, then — only when at least one
item was produced and the measured duration is positive — one frame whose
payload nests the statistics under a `"stats"` key,
`{"stats": {"tokens":N, "duration":D, "tokens_per_sec":R}}`, then the
`{"completed": true}` frame. -/
theorem sse_frames_shape (gen : List PyVal) (d : ℚ) :
    sse_event_generator gen d =
      gen.map mkChunkFrame ++
        (if 0 < d ∧ 0 < gen.length then [sseStatsFrame gen.length d] else []) ++
        [sseCompletedFrame] := by
  simp [sse_event_generator, sseChunkLoop_eq]

/-- C1 counterexample: a monitor tick taken while the service is stopped
(`get_stats` returns `{"status": "stopped"}`) is not a no-op: from the
initial monitor state it starts the first-idle timer, and once the idle
duration reaches the threshold a stopped-service tick invokes the external
shutdown command. -/
theorem monitor_stopped_tick_not_noop_cex :
    (monitorTick 30 loopInit 100 (.ok (serviceGetStats none none))).st.mon.lastIdleTime =
      some 100 ∧
    (monitorTick 30 ⟨⟨some 0, 1, false⟩, 0⟩ 100 (.ok (serviceGetStats none none))).invoked =
      true := by
  constructor
  · rfl
  · norm_num [monitorTick, serviceGetStats, pyGetD, pyGet, PyVal.lookup, isNumeric,
      pyInt, shutdownPod]
    rfl

/-- C1 (corrected): a monitor tick taken while no inference service is
active does not no-op.  `get_stats` returns `{"status": "stopped"}`, whose
missing `queue_size`/`processing` keys default to 0, so the tick is
processed exactly like a tick observing a running pool with
`queue_size == 0` and `processing == 0`: it starts or advances the
first-idle timer and, once the accumulated idle time reaches the threshold,
invokes HostShutdown. -/
theorem monitor_stopped_tick_behaves_as_idle (th now : ℚ) (s : LoopState)
    (model : Option String) (p : PoolSt)
    (h1 : p.queueLen = 0) (h2 : p.processing_count = 0) :
    monitorTick th s now (.ok (serviceGetStats none model)) =
    monitorTick th s now (.ok (serviceGetStats (some p) model)) := by
  simp [monitorTick, serviceGetStats, pyGetD, pyGet, PyVal.lookup, isNumeric, pyInt,
    h1, h2]

/-- Witness for C1's corrected claim at a concrete idle pool. -/
theorem monitor_stopped_tick_behaves_as_idle_witness :
    monitorTick 30 loopInit 100 (.ok (serviceGetStats none none)) =
    monitorTick 30 loopInit 100 (.ok (serviceGetStats (some (mkPool 1 10 30)) none)) :=
  monitor_stopped_tick_behaves_as_idle 30 100 loopInit none (mkPool 1 10 30) rfl rfl

/-- A step taken with the one-shot flag already set never invokes the
external command and leaves the flag set. -/
theorem monStep_flag_absorbing (th : ℚ) (s : LoopState) (step : MonStep)
    (h : s.mon.shutdownAttempted = true) :
    (applyMonStep th s step).2 = false ∧
    (applyMonStep th s step).1.mon.shutdownAttempted = true := by
  cases step with
  | tick now read => simp [applyMonStep, monitorTick, h]
  | podShutdownCall => simp [applyMonStep, shutdownPod, h]

/-- A tick either does not invoke the external command, or leaves the
one-shot flag set. -/
theorem monitorTick_invoked_flag (th : ℚ) (s : LoopState) (now : ℚ)
    (read : StatsRead) :
    (monitorTick th s now read).invoked = false ∨
    (monitorTick th s now read).st.mon.shutdownAttempted = true := by
  simp only [monitorTick, shutdownPod]
  repeat' split
  all_goals simp

/-- A step that invokes the external command leaves the one-shot flag set. -/
theorem monStep_invoke_sets_flag (th : ℚ) (s : LoopState) (step : MonStep)
    (h : (applyMonStep th s step).2 = true) :
    (applyMonStep th s step).1.mon.shutdownAttempted = true := by
  cases step with
  | tick now read =>
      simp only [applyMonStep] at h ⊢
      rcases monitorTick_invoked_flag th s now read with hf | hf
      · rw [h] at hf
        exact absurd hf (by simp)
      · exact hf
  | podShutdownCall =>
      by_cases hm : s.mon.shutdownAttempted = true
      · simp [applyMonStep, shutdownPod, hm] at h
      · simp only [Bool.not_eq_true] at hm
        simp [applyMonStep, shutdownPod, hm]

/-- Once the one-shot flag is set, no later steps invoke the command. -/
theorem countInvocations_attempted_zero (th : ℚ) (steps : List MonStep)
    (s : LoopState) (h : s.mon.shutdownAttempted = true) :
    countInvocations th s steps = 0 := by
  induction steps generalizing s with
  | nil => rfl
  | cons step rest ih =>
      have hstep := monStep_flag_absorbing th s step h
      simp [countInvocations, hstep.1, ih _ hstep.2]

/-- From any state, a run of steps invokes the command at most once. -/
theorem countInvocations_le_one (th : ℚ) (steps : List MonStep) (s : LoopState) :
    countInvocations th s steps ≤ 1 := by
  induction steps generalizing s with
  | nil => simp [countInvocations]
  | cons step rest ih =>
      by_cases hinv : (applyMonStep th s step).2 = true
      · have hflag := monStep_invoke_sets_flag th s step hinv
        simp [countInvocations, hinv,
          countInvocations_attempted_zero th rest _ hflag]
      · simp only [Bool.not_eq_true] at hinv
        simp only [countInvocations, hinv, Bool.false_eq_true, if_false]
        simpa using ih (applyMonStep th s step).1

/-- C9 (confirmed): over any sequence of monitor ticks and direct calls of
the shutdown routine starting from the process's initial state, the
external pod-termination command is invoked at most once; and from any
state in which the shutdown-attempted flag is already set, it is never
invoked again. -/
theorem host_shutdown_at_most_once (th : ℚ) (steps : List MonStep) (s : LoopState)
    (h : s.mon.shutdownAttempted = true) :
    countInvocations th loopInit steps ≤ 1 ∧ countInvocations th s steps = 0 :=
  ⟨countInvocations_le_one th steps loopInit,
   countInvocations_attempted_zero th steps s h⟩

/-- Witness for C9: two direct shutdown calls and a threshold-crossing tick
from the initial state invoke the command at most once, and from a
flag-set state they invoke it zero times. -/
theorem host_shutdown_at_most_once_witness :
    countInvocations 30 loopInit
      [.podShutdownCall, .podShutdownCall, .tick 100 (.ok (serviceGetStats none none))] ≤ 1 ∧
    countInvocations 30 ⟨⟨none, 0, true⟩, 0⟩
      [.podShutdownCall, .podShutdownCall, .tick 100 (.ok (serviceGetStats none none))] = 0 :=
  host_shutdown_at_most_once 30
    [.podShutdownCall, .podShutdownCall, .tick 100 (.ok (serviceGetStats none none))]
    ⟨⟨none, 0, true⟩, 0⟩ rfl

/-- C4 (code bug): when `Start` fails because no backend handles resolve,
the service is only left unstarted if it held no pool before.  A first
start with one resolved handle succeeds; a subsequent start that resolves
no backends returns `False` but leaves `self.worker_pool` bound to the old
(shut-down) pool and `self.current_model` set to the new model id, so
`is_running()` reports `True` — contradicting the documented failure
semantics.  (From a fresh service the failed start does leave
`is_running()` false.) -/
theorem start_failure_leaves_service_running_bug :
    (svcStart svcInit "m1" [7] 1 10 30).2 = true ∧
    svcIsRunning (svcStart svcInit "x" [] 1 10 30).1 = false ∧
    (svcStart (svcStart svcInit "m1" [7] 1 10 30).1 "m2" [] 1 10 30).2 = false ∧
    svcIsRunning (svcStart (svcStart svcInit "m1" [7] 1 10 30).1 "m2" [] 1 10 30).1 =
      true ∧
    (svcStart (svcStart svcInit "m1" [7] 1 10 30).1 "m2" [] 1 10 30).1.worker_pool =
      some (poolShutdown (mkPool 1 10 30)) ∧
    (svcStart (svcStart svcInit "m1" [7] 1 10 30).1 "m2" [] 1 10 30).1.current_model =
      some "m2" ∧
    (svcStart (svcStart svcInit "m1" [7] 1 10 30).1 "m2" [] 1 10 30).1.worker_backends =
      [] :=
  ⟨rfl, rfl, rfl, rfl, rfl, rfl, rfl⟩

/-- The dangling-reference fixture indeed violates referential integrity. -/
theorem danglingManifest_not_intact : ¬ referentiallyIntact danglingManifest := by
  unfold referentiallyIntact
  decide

/-- C5 counterexample: a shape-valid manifest whose single model references
the backend id `"missing-backend"`, which does not appear among the
backends, is accepted by `load_manifest` and installed as the in-memory
manifest — the claim says such a load must fail. -/
theorem manifest_dangling_ref_accepted_cex :
    load_manifest danglingRawManifest = some danglingManifest ∧
    ¬ referentiallyIntact danglingManifest :=
  ⟨rfl, danglingManifest_not_intact⟩

/-- C5 (corrected): manifest loading performs only pydantic shape
validation; referential integrity between `ModelInfo.backend` and the
`backends` mapping is not checked, and a manifest with a dangling backend
reference is installed as the in-memory manifest.  The dangling reference
surfaces only later: `get_worker_backends` for such a model returns no
workers, because `download_backend` refuses unknown backend ids. -/
theorem manifest_load_skips_referential_check (n : ℕ) (io : Bool)
    (loads : ℕ → Option ℕ) :
    load_manifest danglingRawManifest = some danglingManifest ∧
    ¬ referentiallyIntact danglingManifest ∧
    get_worker_backends danglingManifest "m" n io loads = [] := by
  refine ⟨rfl, danglingManifest_not_intact, ?_⟩
  have h0 : get_worker_backends danglingManifest "m" n io loads =
      (List.range n).filterMap
        (fun i => create_worker_backend danglingManifest "missing-backend" io (loads i)) :=
    rfl
  rw [h0, List.filterMap_eq_nil_iff]
  intro i _
  rfl

/-- C7 (code bug): `_get_next_backend` always returns
`self.worker_backends[0]`, so with two workers and two distinct backend
handles every dispatch — regardless of which capability is requested —
resolves its function on the same first handle; the second handle is never
used, and two concurrently executing calls share one handle, contradicting
per-worker handle exclusivity. -/
theorem execute_function_single_handle_bug :
    twoWorkerSvc.worker_backends = [17, 42] ∧
    executeFunctionHandle twoWorkerSvc (fun _ => true) = some 17 ∧
    executeFunctionHandle twoWorkerSvc (fun b => b == 17 || b == 42) = some 17 ∧
    getNextBackend twoWorkerSvc.worker_backends = some 17 :=
  ⟨rfl, rfl, rfl, rfl⟩

end MoondreamStation
